import Mathlib

/-!
Verification development for the FinOps Intelligence Dashboard frontend core:
the cost-aggregation dashboard state (DashboardPage.tsx), the data hooks
(useFinopsData.ts), the API facade (finopsApi.ts), the AI insight panel
(AIInsightPanel.tsx) and the shared types (finops.d.ts).

Monetary amounts (`cost`, the overview metrics) are embedded as rationals;
calendar-date filter values are embedded as integer day numbers and their
conversion to a transmitted instant (`new Date(x).toISOString()`) as
millisecond timestamps at UTC midnight of that day.
-/

namespace FinOps

/-- Embedding of the `AggregatedCostData` interface of finops.d.ts:
a retrieved cost record. `time_period` is the record's day-granularity
instant, `cost` its decimal amount. -/
structure AggregatedCostData where
  id : Nat
  service : String
  project : Option String
  sku : String
  time_period : Int
  cost : ℚ
  currency : Option String
  usage_amount : Option ℚ
  usage_unit : Option String
  deriving Repr, DecidableEq

/-- Embedding of the `FinopsOverview` interface of finops.d.ts
(lines 44-47): the overview model the backend exposes to the frontend.
It has exactly two fields: `mtd_spend` and `burn_rate_estimated_monthly`. -/
structure FinopsOverview where
  mtd_spend : ℚ
  burn_rate_estimated_monthly : ℚ
  deriving Repr, DecidableEq

/-- The field names the `FinopsOverview` interface of finops.d.ts declares,
in declaration order.  This is the exposed surface of the overview-metrics
model as far as the frontend types are concerned. -/
def finopsOverviewFieldNames : List String :=
  ["mtd_spend", "burn_rate_estimated_monthly"]

/-- Embedding of the `ApiError` interface of common.d.ts (`detail`,
optional `status_code`; the optional `code` field is never set by the
hooks and is omitted). -/
structure ApiError where
  detail : String
  status_code : Option Nat
  deriving Repr, DecidableEq

/-- JS string truthiness as used by the dashboard filters:
`s || undefined` maps the empty string to `undefined` (unset). -/
def emptyToNone (s : String) : Option String :=
  if s = "" then none else some s

/-- Conversion of a calendar-date filter value (a day number) to the
instant transmitted to the collaborator, embedding
`new Date(dateString).toISOString()`: a date-only string parses to UTC
midnight of that day, here in milliseconds. -/
def dayToInstant (day : Int) : Int :=
  day * 86400000

/-- The query-parameter object of `finopsApi.getAggregatedCostDataList`,
as assembled by DashboardPage (lines 55-63): `skip`/`limit` plus the
optional filter fields. -/
structure CostQuery where
  skip : Nat
  limit : Nat
  service : Option String
  project : Option String
  sku : Option String
  start_date : Option Int
  end_date : Option Int
  deriving Repr, DecidableEq

/-- The filter text-field state of DashboardPage (lines 33-37).  The three
string filters hold raw text, the empty string meaning unset; a date
filter holds the picked calendar day, `none` when the field is empty. -/
structure DashFilters where
  projectFilter : String
  serviceFilter : String
  skuFilter : String
  startDateFilter : Option Int
  endDateFilter : Option Int
  deriving Repr, DecidableEq

/-- The render state of DashboardPage that feeds `useAggregatedCostData`:
the filters plus `currentPage` (1-based) and `itemsPerPage`. -/
structure DashRenderState where
  filters : DashFilters
  currentPage : Nat
  itemsPerPage : Nat
  deriving Repr, DecidableEq

/-- Embedding of the argument DashboardPage passes to
`useAggregatedCostData` (lines 55-63): `skip = (currentPage-1)*itemsPerPage`,
`limit = itemsPerPage`, each string filter passed through `|| undefined`,
and each set date converted with `new Date(x).toISOString()`.  No
validation of any kind is performed on the way. -/
def costQueryOf (s : DashRenderState) : CostQuery :=
  { skip := (s.currentPage - 1) * s.itemsPerPage
    limit := s.itemsPerPage
    service := emptyToNone s.filters.serviceFilter
    project := emptyToNone s.filters.projectFilter
    sku := emptyToNone s.filters.skuFilter
    start_date := s.filters.startDateFilter.map dayToInstant
    end_date := s.filters.endDateFilter.map dayToInstant }

/-- Embedding of `handleApplyFilters` (DashboardPage lines 72-76): it
queues `setCurrentPage(1)` and synchronously invokes `refetchCostData()`.
The refetch closure was created in the current render, so the fetch it
issues uses the query built from the CURRENT state (pre-reset page);
the page reset is only visible to later renders.  Returns the post-handler
state together with the query of the fetch the handler itself issued. -/
def handleApplyFilters (s : DashRenderState) : DashRenderState × CostQuery :=
  ({ s with currentPage := 1 }, costQueryOf s)

/-- Embedding of the page count handed to the `Pagination` component
(DashboardPage line 310): `Math.ceil(totalItems / itemsPerPage)` — for a
positive divisor this is exact natural ceiling division, with no minimum
applied. -/
def paginationCount (totalItems itemsPerPage : Nat) : Nat :=
  (totalItems + itemsPerPage - 1) / itemsPerPage

/-- The page count the specification asks for
(`max(1, ceil(totalCount/itemsPerPage))`), written from the spec text for
comparison with `paginationCount`. -/
def specTotalPages (totalCount itemsPerPage : Nat) : Nat :=
  max 1 ((totalCount + itemsPerPage - 1) / itemsPerPage)

/-- The optional parameter object of `useAggregatedCostData`
(useFinopsData.ts lines 40-48): every field optional, the whole object
itself optional. -/
structure CostParams where
  skip : Option Nat
  limit : Option Nat
  service : Option String
  project : Option String
  sku : Option String
  start_date : Option String
  end_date : Option String
  deriving Repr, DecidableEq

/-- The state kept by `useAggregatedCostData` (useFinopsData.ts
lines 49-51): the record list, the loading flag and the last error. -/
structure HookState where
  costData : List AggregatedCostData
  loading : Bool
  error : Option ApiError
  deriving Repr, DecidableEq

/-- The initial hook state: `useState([])`, `useState(true)`,
`useState(null)`. -/
def initHookState : HookState :=
  { costData := [], loading := true, error := none }

/-- JS `a || b` on an optional string against a default: a missing or
empty (falsy) `a` yields the default. -/
def jsOrDefault (o : Option String) (dflt : String) : String :=
  match o with
  | some s => if s = "" then dflt else s
  | none => dflt

/-- What `fetchCostData` does synchronously when invoked
(useFinopsData.ts lines 53-56): `setLoading(true); setError(null)` before
awaiting the collaborator. -/
def startFetch (s : HookState) : HookState :=
  { s with loading := true, error := none }

/-- Outcome of one collaborator call: either a record list, or a failure
carrying the optional `err.response?.data?.detail` and
`err.response?.status`. -/
inductive FetchOutcome where
  | success (data : List AggregatedCostData)
  | failure (respDetail : Option String) (status : Option Nat)
  deriving Repr, DecidableEq

/-- What `fetchCostData` does when the awaited call settles
(useFinopsData.ts lines 57-66): on success `setCostData(data)`
unconditionally — there is no comparison of the response's criteria
against the current ones — and on failure `setError` with
`err.response?.data?.detail || 'Failed to fetch aggregated cost data.'`,
leaving `costData` untouched; `finally setLoading(false)` either way. -/
def completeFetch (s : HookState) : FetchOutcome → HookState
  | .success data => { s with costData := data, loading := false }
  | .failure respDetail status =>
      { s with
          error := some
            { detail := jsOrDefault respDetail "Failed to fetch aggregated cost data."
              status_code := status }
          loading := false }

/-- A resolved fetch, tagged with the criteria that produced it (the
params captured by the `fetchCostData` closure that issued it). -/
structure Resolution where
  criteria : Option CostParams
  data : List AggregatedCostData
  deriving Repr, DecidableEq

/-- Applying a sequence of fetch resolutions to the hook state in the
order they arrive.  `completeFetch` ignores the tagged criteria, exactly
as the hook does. -/
def applyResolutions (s : HookState) (rs : List Resolution) : HookState :=
  rs.foldl (fun st r => completeFetch st (.success r.data)) s

/-- The dependency array of the fetch effect of `useAggregatedCostData`
(useFinopsData.ts line 71): `[params?.skip, params?.limit]`. -/
def effectDeps (p : Option CostParams) : Option Nat × Option Nat :=
  (p.bind (fun q => q.skip), p.bind (fun q => q.limit))

/-- Whether a re-render re-runs the fetch effect: React re-runs an effect
exactly when its dependency array changed relative to the previous
render. -/
def effectRefires (prev curr : Option CostParams) : Bool :=
  decide (effectDeps prev ≠ effectDeps curr)

/-- What the page renders for the record table (DashboardPage
lines 266-307): the spinner while `costDataLoading`, otherwise the rows
of `costData`.  `none` stands for the spinner. -/
def displayedRows (s : HookState) : Option (List AggregatedCostData) :=
  if s.loading then none else some s.costData

/-- DashboardPage's items-per-page: initialised to 10 and never written
afterwards (`setItemsPerPage` has no caller). -/
def itemsPerPageConst : Nat := 10

/-- The pagination-relevant state of DashboardPage: `currentPage`
(1-based), the client-side `totalItems` estimate, and the record window
currently held by the hook. -/
structure DashPageState where
  currentPage : Nat
  totalItems : Nat
  costData : List AggregatedCostData
  deriving Repr, DecidableEq

/-- Embedding of the totalItems-estimation effect of DashboardPage
(lines 116-126): once a fetch has settled, if fewer than a full page came
back and we are on page 1 the total is the visible count; if exactly a
full page came back the total is assumed to be at least one more than
what the current page covers; otherwise the estimate is left alone. -/
def updateTotalItems (s : DashPageState) : DashPageState :=
  if s.costData.length < itemsPerPageConst ∧ s.currentPage = 1 then
    { s with totalItems := s.costData.length }
  else if s.costData.length = itemsPerPageConst then
    { s with totalItems := s.currentPage * itemsPerPageConst + 1 }
  else s

/-- The events that drive DashboardPage's pagination state: a record
fetch settling with a page of data (followed by the estimation effect),
the estimation effect re-running because one of its other dependencies
changed, a page click, and the Apply-Filters handler's page reset. -/
inductive DashEvent where
  | fetchDone (data : List AggregatedCostData)
  | reEstimate
  | pageChange (p : Nat)
  | applyFilters
  deriving Repr

/-- One transition of DashboardPage's pagination state. -/
def dashStep (s : DashPageState) : DashEvent → DashPageState
  | .fetchDone data => updateTotalItems { s with costData := data }
  | .reEstimate => updateTotalItems s
  | .pageChange p => { s with currentPage := p }
  | .applyFilters => { s with currentPage := 1 }

/-- Which events the page can actually produce: a fetch never returns
more rows than the requested `limit`, and a page click comes from the
`Pagination` widget, which only offers pages `1..count`. -/
def dashEventOk (s : DashPageState) : DashEvent → Prop
  | .fetchDone data => data.length ≤ itemsPerPageConst
  | .reEstimate => True
  | .pageChange p => 1 ≤ p ∧ p ≤ paginationCount s.totalItems itemsPerPageConst
  | .applyFilters => True

/-- The initial pagination state of DashboardPage: page 1, zero estimated
items, empty record list. -/
def initDashPageState : DashPageState :=
  { currentPage := 1, totalItems := 0, costData := [] }

/-- The pagination states DashboardPage can reach from its initial state
through its own events. -/
inductive DashReachable : DashPageState → Prop
  | init : DashReachable initDashPageState
  | step {s : DashPageState} {e : DashEvent} :
      DashReachable s → dashEventOk s e → DashReachable (dashStep s e)

/-- The overview metrics record of the specification, with all four
quantities. -/
structure OverviewMetrics where
  mtdSpend : ℚ
  dailyBurnRateMtd : ℚ
  estimatedMonthlyBurnRate : ℚ
  projectedMonthEndSpend : ℚ
  deriving Repr, DecidableEq

/-- Modelled from the spec: the backend Overview Metrics Calculator
(spec section 4.3) is not among the frontend sources; only its response
type (`FinopsOverview`) and its endpoint are.  Following the spec's
formulas: `mtdSpend` is the sum of the window's costs,
`dailyBurnRateMtd = mtdSpend / max(1, daysElapsedInMonth)`,
`estimatedMonthlyBurnRate = dailyBurnRateMtd * daysInCurrentMonth`, and
`projectedMonthEndSpend = mtdSpend + dailyBurnRateMtd *
daysRemainingInMonth` with `daysRemaining = daysInMonth - daysElapsed`. -/
def computeOverviewMetrics (records : List AggregatedCostData)
    (daysElapsedInMonth daysInMonth : Nat) : OverviewMetrics :=
  let mtd : ℚ := (records.map (fun r => r.cost)).sum
  let daily : ℚ := mtd / (max 1 daysElapsedInMonth : Nat)
  { mtdSpend := mtd
    dailyBurnRateMtd := daily
    estimatedMonthlyBurnRate := daily * (daysInMonth : Nat)
    projectedMonthEndSpend := mtd + daily * ((daysInMonth - daysElapsedInMonth : Nat) : ℚ) }

/-- The freshness window configured on every distinct-value query
(useFinopsData.ts lines 85, 101, 117): `5 * 60 * 1000` milliseconds. -/
def staleTimeMs : Nat := 5 * 60 * 1000

/-- The hard cache-retention window configured on every distinct-value
query (useFinopsData.ts lines 86, 102, 118): `30 * 60 * 1000`
milliseconds. -/
def cacheTimeMs : Nat := 30 * 60 * 1000

/-- The query key of `useDistinctServices` (useFinopsData.ts line 83). -/
def distinctServicesKey : String := "distinctServices"

/-- The query key of `useDistinctProjects` (useFinopsData.ts line 99). -/
def distinctProjectsKey : String := "distinctProjects"

/-- The query key of `useDistinctSkus` (useFinopsData.ts line 115). -/
def distinctSkusKey : String := "distinctSkus"

/-- One cached distinct-value list together with the time (ms) it was
fetched. -/
structure CacheEntry where
  value : List String
  fetchedAt : Nat
  deriving Repr, DecidableEq

/-- The query cache, keyed by query key. -/
def QueryCache : Type := String → Option CacheEntry

/-- Point update of the query cache at one key. -/
def QueryCache.update (c : QueryCache) (key : String) (e : CacheEntry) :
    QueryCache :=
  fun k => if k = key then some e else c k

/-- Result of serving one distinct-value query: the list handed to the
caller, whether a collaborator call was issued for it, and the cache
afterwards. -/
structure QueryOutcome where
  value : List String
  issuedCall : Bool
  cache : QueryCache

/-- Modelled from the spec: the query-cache machinery the hooks delegate
to is an external library, not among the sources; only its configuration
(`staleTimeMs`, `cacheTimeMs`, the three query keys) is.  Following the
spec's section 4.2: an entry younger than the freshness window is served
as is without a collaborator call; an entry past the 30-minute retention
window has been evicted, so the collaborator is called afresh; in
between, the data is refetched on access. `fetched` is the list the
collaborator would return if called at `now`. -/
def serveQuery (c : QueryCache) (key : String) (now : Nat)
    (fetched : List String) : QueryOutcome :=
  match c key with
  | some e =>
      if now ≥ e.fetchedAt + cacheTimeMs then
        { value := fetched, issuedCall := true
          cache := c.update key { value := fetched, fetchedAt := now } }
      else if now - e.fetchedAt < staleTimeMs then
        { value := e.value, issuedCall := false, cache := c }
      else
        { value := fetched, issuedCall := true
          cache := c.update key { value := fetched, fetchedAt := now } }
  | none =>
      { value := fetched, issuedCall := true
        cache := c.update key { value := fetched, fetchedAt := now } }

/-- The insight types offered by the AIInsightPanel selector
(AIInsightPanel.tsx lines 106-110). -/
inductive InsightType where
  | natural_query
  | summary
  | anomaly
  | prediction
  | recommendation
  deriving Repr, DecidableEq

/-- Embedding of the `AIInsightRequest` body assembled by
AIInsightPanel: optional `query`, the insight type, and the five optional
filter context fields. -/
structure AIInsightRequest where
  query : Option String
  insight_type : InsightType
  project : Option String
  service : Option String
  sku : Option String
  start_date : Option String
  end_date : Option String
  deriving Repr, DecidableEq

/-- The filter props handed to AIInsightPanel (lines 20-27), each an
optional string that may still be the empty string. -/
structure PanelFilters where
  currentProjectFilter : Option String
  currentServiceFilter : Option String
  currentSkuFilter : Option String
  currentStartDateFilter : Option String
  currentEndDateFilter : Option String
  deriving Repr, DecidableEq

/-- JS `x || undefined` on an optional string: empty string and
`undefined` both become `undefined`. -/
def orUndefined (o : Option String) : Option String :=
  match o with
  | some s => if s = "" then none else some s
  | none => none

/-- Embedding of `handleGenerateInsight` (AIInsightPanel.tsx
lines 60-78): when `!userQuery && insightType === 'natural_query'` the
handler shows an error and returns without issuing a request (`none`);
otherwise it builds the request body, with `query: userQuery ||
undefined` and every filter passed through `|| undefined`, and hands it
to the mutation (`some`). -/
def handleGenerateInsight (insightType : InsightType) (userQuery : String)
    (f : PanelFilters) : Option AIInsightRequest :=
  if userQuery = "" ∧ insightType = .natural_query then
    none
  else
    some
      { query := if userQuery = "" then none else some userQuery
        insight_type := insightType
        project := orUndefined f.currentProjectFilter
        service := orUndefined f.currentServiceFilter
        sku := orUndefined f.currentSkuFilter
        start_date := orUndefined f.currentStartDateFilter
        end_date := orUndefined f.currentEndDateFilter }

/-- Whitespace-only (blank) strings, for stating the claim about blank
free text: every character of the string is whitespace. -/
def isBlank (s : String) : Bool :=
  s.data.all (fun c => c.isWhitespace)

/-! Theorems. -/

/-- C4 counterexample: at `totalCount = 0`, `itemsPerPage = 10` the page
count handed to the Pagination widget is `Math.ceil(0/10) = 0`, not the
claimed `max(1, ceil(0/10)) = 1`: the code applies no minimum of 1. -/
theorem paginationCount_zero_cex :
    paginationCount 0 10 = 0 ∧ specTotalPages 0 10 = 1 ∧
      paginationCount 0 10 ≠ specTotalPages 0 10 := by
  decide

/-- C4 (amended): for every `itemsPerPage ≥ 1` the page count is exact
ceiling division `ceil(totalCount/itemsPerPage)` with no minimum applied:
it is 0 exactly when `totalCount = 0`, and agrees with the spec's
`max(1, ceil(totalCount/itemsPerPage))` exactly on `totalCount ≥ 1`. -/
theorem paginationCount_eq_ceil (t i : Nat) (hi : 1 ≤ i) :
    (paginationCount t i = 0 ↔ t = 0) ∧
      (1 ≤ t →
        t ≤ i * paginationCount t i ∧ i * (paginationCount t i - 1) < t) ∧
      (1 ≤ t → paginationCount t i = specTotalPages t i) := by
  have h := Nat.div_add_mod (t + i - 1) i
  have hr : (t + i - 1) % i < i := Nat.mod_lt _ (by omega)
  unfold paginationCount specTotalPages
  generalize hq : (t + i - 1) / i = q at h ⊢
  generalize hm : (t + i - 1) % i = r at h hr
  rcases q with _ | qq
  · simp only [Nat.mul_zero] at h
    omega
  · simp only [Nat.mul_succ, Nat.succ_sub_one] at h ⊢
    omega

/-- Witness for `paginationCount_eq_ceil` at `totalCount = 25`,
`itemsPerPage = 10`. -/
theorem paginationCount_eq_ceil_witness :
    (paginationCount 25 10 = 0 ↔ (25 : Nat) = 0) ∧
      (1 ≤ 25 →
        25 ≤ 10 * paginationCount 25 10 ∧
          10 * (paginationCount 25 10 - 1) < 25) ∧
      (1 ≤ 25 → paginationCount 25 10 = specTotalPages 25 10) :=
  paginationCount_eq_ceil 25 10 (by decide)

/-- A concrete dashboard render state sitting on page 3 with the default
10 items per page and no filters set. -/
def dashAtPage3 : DashRenderState :=
  { filters :=
      { projectFilter := "", serviceFilter := "", skuFilter := ""
        startDateFilter := none, endDateFilter := none }
    currentPage := 3
    itemsPerPage := 10 }

/-- C3 counterexample: clicking Apply Filters on page 3 issues a fetch
with `skip = 20` — the offset of the pre-reset page — even though the
handler has queued the reset to page 1 (whose offset would be 0).  With
the spec's scenario of the filtered total shrinking to 5, offset 20 is
out of range, so the claim that the reset takes effect before the next
fetch is issued is false. -/
theorem applyFilters_stale_offset_cex :
    (handleApplyFilters dashAtPage3).2.skip = 20 ∧
      (handleApplyFilters dashAtPage3).1.currentPage = 1 ∧
      (costQueryOf (handleApplyFilters dashAtPage3).1).skip = 0 ∧
      (handleApplyFilters dashAtPage3).2.skip ≠
        (costQueryOf (handleApplyFilters dashAtPage3).1).skip := by
  decide

/-- C3 (amended): `handleApplyFilters` stores page 1 into the state, but
the fetch it issues synchronously through the captured `refetchCostData`
closure carries the query of the pre-reset render — offset
`(oldPage-1)*itemsPerPage`; only the subsequent fetch triggered by the
`skip` dependency change uses the reset page, whose offset is 0. -/
theorem applyFilters_resets_page_but_refetch_uses_old_offset
    (s : DashRenderState) :
    (handleApplyFilters s).1.currentPage = 1 ∧
      (handleApplyFilters s).2 = costQueryOf s ∧
      (handleApplyFilters s).2.skip = (s.currentPage - 1) * s.itemsPerPage ∧
      (costQueryOf (handleApplyFilters s).1).skip = 0 := by
  refine ⟨rfl, rfl, rfl, ?_⟩
  simp [costQueryOf, handleApplyFilters]

/-- A concrete dashboard render state whose date filters hold the
inverted range startDate = day 20, endDate = day 3. -/
def dashBadRange : DashRenderState :=
  { filters :=
      { projectFilter := "", serviceFilter := "", skuFilter := ""
        startDateFilter := some 20, endDateFilter := some 3 }
    currentPage := 1
    itemsPerPage := 10 }

/-- C7 counterexample: with `startDate` day 20 and `endDate` day 3 —
an inverted range — DashboardPage still builds the fetch query with both
dates converted to instants and hands it to the collaborator; no
`ValidationError` is raised and no error path even exists in the code. -/
theorem invalid_date_range_sent_cex :
    (costQueryOf dashBadRange).start_date = some 1728000000 ∧
      (costQueryOf dashBadRange).end_date = some 259200000 ∧
      (20 : Int) > 3 := by
  decide

/-- C7 (amended): no date-range validation is performed anywhere on the
fetch path: for every render state whose two date filters are both set,
even with `startDate > endDate`, the query is built as a plain value with
both dates converted (`new Date(x).toISOString()`), so the inverted range
is transmitted to the collaborator rather than rejected. -/
theorem no_date_range_validation (s : DashRenderState) (sd ed : Int)
    (hs : s.filters.startDateFilter = some sd)
    (he : s.filters.endDateFilter = some ed) (hlt : ed < sd) :
    (costQueryOf s).start_date = some (dayToInstant sd) ∧
      (costQueryOf s).end_date = some (dayToInstant ed) := by
  simp [costQueryOf, hs, he]

/-- Witness for `no_date_range_validation` on the concrete inverted
range day 20 / day 3. -/
theorem no_date_range_validation_witness :
    (costQueryOf dashBadRange).start_date = some (dayToInstant 20) ∧
      (costQueryOf dashBadRange).end_date = some (dayToInstant 3) :=
  no_date_range_validation dashBadRange 20 3 rfl rfl (by decide)

/-- Panel filter props with nothing set. -/
def emptyPanelFilters : PanelFilters :=
  { currentProjectFilter := none, currentServiceFilter := none
    currentSkuFilter := none, currentStartDateFilter := none
    currentEndDateFilter := none }

/-- C6 counterexample: a blank (whitespace-only) free text passes the
guard `!userQuery && insightType === 'natural_query'` — JS falsiness only
catches the empty string — so `buildRequest` for a `natural_query` with
query text consisting of a single space succeeds and even sends that
blank text as the query, where the claim demands a `ValidationError` for
empty OR blank text. -/
theorem blank_query_accepted_cex :
    isBlank " " = true ∧ " " ≠ "" ∧
      handleGenerateInsight .natural_query " " emptyPanelFilters =
        some
          { query := some " ", insight_type := .natural_query
            project := none, service := none, sku := none
            start_date := none, end_date := none } := by
  decide

/-- C6 (amended): the request build fails exactly when the insight type
is `natural_query` and the free text is the EMPTY string (whitespace-only
text is accepted and carried verbatim); whenever a request is produced,
`query` is never the empty string — it is omitted entirely when the text
is empty and carried verbatim otherwise — and a filter that is unset or
empty is omitted (`none`), not sent as null or empty. -/
theorem buildRequest_empty_query_only (t : InsightType) (q : String)
    (f : PanelFilters) :
    (handleGenerateInsight t q f = none ↔ (q = "" ∧ t = .natural_query)) ∧
      (∀ req, handleGenerateInsight t q f = some req →
        req.query ≠ some "" ∧
          (q = "" → req.query = none) ∧
          (q ≠ "" → req.query = some q) ∧
          req.insight_type = t ∧
          (f.currentProjectFilter = none ∨ f.currentProjectFilter = some "" →
            req.project = none) ∧
          (f.currentServiceFilter = none ∨ f.currentServiceFilter = some "" →
            req.service = none) ∧
          (f.currentSkuFilter = none ∨ f.currentSkuFilter = some "" →
            req.sku = none) ∧
          (f.currentStartDateFilter = none ∨
              f.currentStartDateFilter = some "" →
            req.start_date = none) ∧
          (f.currentEndDateFilter = none ∨ f.currentEndDateFilter = some "" →
            req.end_date = none)) := by
  constructor
  · unfold handleGenerateInsight
    split
    · simp_all
    · simp_all
  · intro req hreq
    unfold handleGenerateInsight at hreq
    split at hreq
    · exact absurd hreq (by simp)
    · cases hreq
      refine ⟨?_, ?_, ?_, rfl, ?_, ?_, ?_, ?_, ?_⟩
      · by_cases hq : q = "" <;> simp [hq]
      · intro hq ; simp [hq]
      · intro hq ; simp [hq]
      all_goals intro hf
      all_goals rcases hf with hf | hf <;> simp [orUndefined, hf]

/-- Witness for `buildRequest_empty_query_only`: a summary request with
empty text and no filter set yields a request omitting the query and all
five filter fields. -/
theorem buildRequest_empty_query_only_witness :
    (handleGenerateInsight .summary "" emptyPanelFilters = none ↔
        (("" : String) = "" ∧ InsightType.summary = .natural_query)) ∧
      (∀ req,
        handleGenerateInsight .summary "" emptyPanelFilters = some req →
        req.query ≠ some "" ∧
          (("" : String) = "" → req.query = none) ∧
          (("" : String) ≠ "" → req.query = some "") ∧
          req.insight_type = .summary ∧
          (emptyPanelFilters.currentProjectFilter = none ∨
              emptyPanelFilters.currentProjectFilter = some "" →
            req.project = none) ∧
          (emptyPanelFilters.currentServiceFilter = none ∨
              emptyPanelFilters.currentServiceFilter = some "" →
            req.service = none) ∧
          (emptyPanelFilters.currentSkuFilter = none ∨
              emptyPanelFilters.currentSkuFilter = some "" →
            req.sku = none) ∧
          (emptyPanelFilters.currentStartDateFilter = none ∨
              emptyPanelFilters.currentStartDateFilter = some "" →
            req.start_date = none) ∧
          (emptyPanelFilters.currentEndDateFilter = none ∨
              emptyPanelFilters.currentEndDateFilter = some "" →
            req.end_date = none)) :=
  buildRequest_empty_query_only .summary "" emptyPanelFilters

/-- A record-list fetch parameter object with only paging set, used as
criteria X in the stale-fetch scenario. -/
def criteriaX : Option CostParams :=
  some
    { skip := some 0, limit := some 10, service := some "BigQuery"
      project := none, sku := none, start_date := none, end_date := none }

/-- A second parameter object with a different service filter, used as
criteria Y. -/
def criteriaY : Option CostParams :=
  some
    { skip := some 0, limit := some 10, service := some "Compute"
      project := none, sku := none, start_date := none, end_date := none }

/-- A concrete cost record. -/
def recA : AggregatedCostData :=
  { id := 1, service := "BigQuery", project := none, sku := "sku-a"
    time_period := 0, cost := 10, currency := some "USD"
    usage_amount := none, usage_unit := none }

/-- A second, different concrete cost record. -/
def recB : AggregatedCostData :=
  { id := 2, service := "Compute", project := none, sku := "sku-b"
    time_period := 86400000, cost := 20, currency := some "USD"
    usage_amount := none, usage_unit := none }

/-- C2 counterexample: fetch A (criteria X) is issued, then fetch B
(criteria Y ≠ X); B resolves first with its records, then A's stale
result arrives — and the hook applies it unconditionally, overwriting the
state derived from Y.  The claim that A's result is discarded is false:
the final visible records are A's, not B's. -/
theorem stale_fetch_overwrites_cex :
    criteriaX ≠ criteriaY ∧
      [recA] ≠ [recB] ∧
      (applyResolutions initHookState
          [{ criteria := criteriaY, data := [recB] },
           { criteria := criteriaX, data := [recA] }]).costData = [recA] := by
  refine ⟨by decide, by decide, rfl⟩

/-- C2 (amended): the hook keeps no version stamp at all — every
resolution is applied unconditionally, so the visible record state after
any sequence of resolutions is the data of whichever fetch resolved LAST,
regardless of the criteria that produced it and regardless of issue
order; a stale response that arrives after a newer one overwrites the
newer state. -/
theorem last_resolution_wins (s : HookState) (rs : List Resolution)
    (r : Resolution) :
    (applyResolutions s (rs ++ [r])).costData = r.data ∧
      (applyResolutions s (rs ++ [r])).loading = false := by
  unfold applyResolutions
  rw [List.foldl_append]
  exact ⟨rfl, rfl⟩

/-- C8: when a record fetch fails, the hook sets an error whose `detail`
is always a nonempty human-readable string (the collaborator's detail
when present and nonempty, a fixed message otherwise), leaves the
previously loaded `costData` untouched, and clears `loading`, so the page
renders the retained rows rather than a blanked table. -/
theorem failed_fetch_retains_data (s : HookState)
    (respDetail : Option String) (status : Option Nat) :
    (completeFetch (startFetch s) (.failure respDetail status)).costData =
        s.costData ∧
      displayedRows (completeFetch (startFetch s) (.failure respDetail status)) =
        some s.costData ∧
      ∃ e,
        (completeFetch (startFetch s) (.failure respDetail status)).error =
            some e ∧
          e.detail ≠ "" ∧ e.status_code = status := by
  refine ⟨rfl, by simp [completeFetch, startFetch, displayedRows], ?_⟩
  refine ⟨_, rfl, ?_, rfl⟩
  unfold jsOrDefault
  rcases respDetail with _ | d
  · simp
  · by_cases hd : d = "" <;> simp [hd]

/-- The inductive invariant of DashboardPage's pagination state: the
estimate covers the visible rows, the page is 1-based, and being past
page 1 means the estimate has seen at least one full page plus one. -/
def dashInvariant (s : DashPageState) : Prop :=
  s.costData.length ≤ s.totalItems ∧
    1 ≤ s.currentPage ∧
    (2 ≤ s.currentPage → itemsPerPageConst + 1 ≤ s.totalItems)

lemma dashInvariant_init : dashInvariant initDashPageState := by
  simp [dashInvariant, initDashPageState]

lemma dashInvariant_update (s : DashPageState)
    (hp : 1 ≤ s.currentPage)
    (hbig : 2 ≤ s.currentPage → itemsPerPageConst + 1 ≤ s.totalItems)
    (hcase : s.costData.length ≤ itemsPerPageConst ∨
      s.costData.length ≤ s.totalItems) :
    dashInvariant (updateTotalItems s) := by
  unfold dashInvariant updateTotalItems itemsPerPageConst at *
  split_ifs with h1 h2 <;> (try dsimp only) <;> omega

lemma dashInvariant_step {s : DashPageState} {e : DashEvent}
    (hinv : dashInvariant s) (hok : dashEventOk s e) :
    dashInvariant (dashStep s e) := by
  obtain ⟨hlen, hpage, hbig⟩ := hinv
  cases e with
  | fetchDone data =>
      have hd : data.length ≤ itemsPerPageConst := hok
      exact dashInvariant_update { s with costData := data } hpage hbig
        (Or.inl hd)
  | reEstimate =>
      exact dashInvariant_update s hpage hbig (Or.inr hlen)
  | pageChange p =>
      obtain ⟨hp1, hp2⟩ := hok
      unfold paginationCount itemsPerPageConst at hp2
      show dashInvariant { s with currentPage := p }
      refine ⟨hlen, hp1, ?_⟩
      intro h2p
      replace h2p : 2 ≤ p := h2p
      show itemsPerPageConst + 1 ≤ s.totalItems
      unfold itemsPerPageConst
      omega
  | applyFilters =>
      show dashInvariant { s with currentPage := 1 }
      exact ⟨hlen, le_refl 1, by intro h; simp at h⟩

lemma dashReachable_invariant {s : DashPageState} (h : DashReachable s) :
    dashInvariant s := by
  induction h with
  | init => exact dashInvariant_init
  | step _ hok ih => exact dashInvariant_step ih hok

/-- C5: in every pagination state DashboardPage can reach — any sequence
of settled fetches, estimation-effect re-runs, in-range page clicks and
filter applications — the client-side `totalItems` estimate is never
below the number of records currently visible in the table. -/
theorem estimate_never_below_visible (s : DashPageState)
    (h : DashReachable s) : s.costData.length ≤ s.totalItems :=
  (dashReachable_invariant h).1

/-- Witness for `estimate_never_below_visible`: the state after the
initial fetch settles with one record on page 1. -/
theorem estimate_never_below_visible_witness :
    (dashStep initDashPageState (.fetchDone [recA])).costData.length ≤
      (dashStep initDashPageState (.fetchDone [recA])).totalItems :=
  estimate_never_below_visible _
    (DashReachable.step DashReachable.init
      (show [recA].length ≤ itemsPerPageConst by decide))

/-- C1 counterexample: the overview model the code exposes
(`FinopsOverview`, finops.d.ts lines 44-47) declares exactly two fields,
`mtd_spend` and `burn_rate_estimated_monthly`; neither a daily-burn-rate
field nor a projected-month-end field exists, so the model does not
expose all four claimed quantities. -/
theorem overview_exposes_two_fields_cex :
    finopsOverviewFieldNames.length = 2 ∧
      "daily_burn_rate_mtd" ∉ finopsOverviewFieldNames ∧
      "dailyBurnRateMtd" ∉ finopsOverviewFieldNames ∧
      "projected_month_end_spend" ∉ finopsOverviewFieldNames ∧
      "projectedMonthEndSpend" ∉ finopsOverviewFieldNames := by
  decide

/-- C1 (amended): the exposed overview model carries exactly two
quantities; for the spec-modelled calculator, over every window of
non-negative cost records, `mtdSpend` is the sum of the costs,
`projectedMonthEndSpend ≥ mtdSpend`, and the empty window yields all four
computed metrics equal to 0 (a well-defined value, not an absent one). -/
theorem overviewMetrics_correct (records : List AggregatedCostData)
    (de dm : Nat) (hpos : ∀ r ∈ records, 0 ≤ r.cost) :
    (computeOverviewMetrics records de dm).mtdSpend =
        (records.map (fun r => r.cost)).sum ∧
      0 ≤ (computeOverviewMetrics records de dm).mtdSpend ∧
      (computeOverviewMetrics records de dm).mtdSpend ≤
        (computeOverviewMetrics records de dm).projectedMonthEndSpend ∧
      (records = [] →
        computeOverviewMetrics records de dm =
          { mtdSpend := 0, dailyBurnRateMtd := 0
            estimatedMonthlyBurnRate := 0, projectedMonthEndSpend := 0 }) ∧
      finopsOverviewFieldNames.length = 2 := by
  have hsum : 0 ≤ (records.map (fun r => r.cost)).sum := by
    apply List.sum_nonneg
    intro x hx
    obtain ⟨r, hr, rfl⟩ := List.mem_map.mp hx
    exact hpos r hr
  have hdaily :
      0 ≤ (records.map (fun r => r.cost)).sum / ((max 1 de : Nat) : ℚ) :=
    div_nonneg hsum (by positivity)
  refine ⟨rfl, hsum, ?_, ?_, rfl⟩
  · show (records.map (fun r => r.cost)).sum ≤
      (records.map (fun r => r.cost)).sum +
        (records.map (fun r => r.cost)).sum / ((max 1 de : Nat) : ℚ) *
          (((dm - de : Nat) : ℚ))
    have hrem : (0 : ℚ) ≤ ((dm - de : Nat) : ℚ) := by positivity
    nlinarith [mul_nonneg hdaily hrem]
  · intro h
    subst h
    simp [computeOverviewMetrics]

/-- Witness for `overviewMetrics_correct` on the spec's own scenario:
two records of cost 10 and 20 on day 2 of a 30-day month. -/
theorem overviewMetrics_correct_witness :
    (computeOverviewMetrics [recA, recB] 2 30).mtdSpend =
        ([recA, recB].map (fun r => r.cost)).sum ∧
      0 ≤ (computeOverviewMetrics [recA, recB] 2 30).mtdSpend ∧
      (computeOverviewMetrics [recA, recB] 2 30).mtdSpend ≤
        (computeOverviewMetrics [recA, recB] 2 30).projectedMonthEndSpend ∧
      ([recA, recB] = ([] : List AggregatedCostData) →
        computeOverviewMetrics [recA, recB] 2 30 =
          { mtdSpend := 0, dailyBurnRateMtd := 0
            estimatedMonthlyBurnRate := 0, projectedMonthEndSpend := 0 }) ∧
      finopsOverviewFieldNames.length = 2 :=
  overviewMetrics_correct [recA, recB] 2 30 (by decide)

/-- C9: under the distinct-value cache policy — the hooks' configured
5-minute freshness window and 30-minute retention, spec-modelled over
the external query library — (a) a query within the freshness window of
the previous successful fetch is served from cache with no collaborator
call and an unchanged cache, (b) a query at or past the retention window
finds the entry evicted and issues a fresh collaborator call, and (c)
serving one key never touches another key's entry, and the three
dimension hooks use three pairwise-distinct keys. -/
theorem distinct_cache_policy :
    (∀ (c : QueryCache) (key : String) (now : Nat) (e : CacheEntry)
        (fetched : List String),
        c key = some e → e.fetchedAt ≤ now →
        now - e.fetchedAt < staleTimeMs →
        (serveQuery c key now fetched).value = e.value ∧
          (serveQuery c key now fetched).issuedCall = false ∧
          (serveQuery c key now fetched).cache = c) ∧
      (∀ (c : QueryCache) (key : String) (now : Nat) (e : CacheEntry)
          (fetched : List String),
          c key = some e → e.fetchedAt + cacheTimeMs ≤ now →
          (serveQuery c key now fetched).issuedCall = true ∧
            (serveQuery c key now fetched).value = fetched) ∧
      (∀ (c : QueryCache) (key k : String) (now : Nat)
          (fetched : List String), k ≠ key →
          (serveQuery c key now fetched).cache k = c k) ∧
      (distinctServicesKey ≠ distinctProjectsKey ∧
        distinctServicesKey ≠ distinctSkusKey ∧
        distinctProjectsKey ≠ distinctSkusKey) := by
  refine ⟨?_, ?_, ?_, by decide, by decide, by decide⟩
  · intro c key now e fetched hc hle hfresh
    unfold serveQuery
    rw [hc]
    dsimp only
    have hcache : ¬ now ≥ e.fetchedAt + cacheTimeMs := by
      unfold staleTimeMs at hfresh
      unfold cacheTimeMs
      omega
    rw [if_neg hcache, if_pos hfresh]
    exact ⟨rfl, rfl, rfl⟩
  · intro c key now e fetched hc hev
    unfold serveQuery
    rw [hc]
    dsimp only
    rw [if_pos (by omega : now ≥ e.fetchedAt + cacheTimeMs)]
    exact ⟨rfl, rfl⟩
  · intro c key k now fetched hk
    unfold serveQuery
    cases hck : c key with
    | none => simp [QueryCache.update, hk]
    | some e =>
        dsimp only
        split_ifs <;> simp [QueryCache.update, hk]

/-- A concrete one-entry cache holding a distinct-services list fetched
at time 0. -/
def servicesCache : QueryCache :=
  fun k =>
    if k = distinctServicesKey then
      some { value := ["BigQuery", "Compute"], fetchedAt := 0 }
    else none

/-- Witness for `distinct_cache_policy`: a lookup of the services key at
time 1000 ms — well inside the freshness window — is served from cache
with no collaborator call. -/
theorem distinct_cache_policy_witness :
    (serveQuery servicesCache distinctServicesKey 1000 []).value =
        ["BigQuery", "Compute"] ∧
      (serveQuery servicesCache distinctServicesKey 1000 []).issuedCall =
        false ∧
      (serveQuery servicesCache distinctServicesKey 1000 []).cache =
        servicesCache :=
  distinct_cache_policy.1 servicesCache distinctServicesKey 1000
    { value := ["BigQuery", "Compute"], fetchedAt := 0 } []
    (by unfold servicesCache; simp) (by decide) (by decide)

/-- C10: the fetch effect of `useAggregatedCostData` re-runs exactly when
its dependency array `[params?.skip, params?.limit]` changed: two
parameter objects agreeing on `skip` and `limit` never re-trigger it —
however much `service`, `project`, `sku` or the dates differ — while any
change to `skip` or `limit` does. -/
theorem fetch_effect_deps_only_paging :
    (∀ p q : CostParams, p.skip = q.skip → p.limit = q.limit →
        effectRefires (some p) (some q) = false) ∧
      (∀ p q : CostParams, p.skip ≠ q.skip ∨ p.limit ≠ q.limit →
        effectRefires (some p) (some q) = true) := by
  constructor
  · intro p q hs hl
    simp [effectRefires, effectDeps, hs, hl]
  · intro p q h
    simp only [effectRefires, effectDeps, decide_eq_true_eq]
    intro hc
    rw [Prod.mk.injEq] at hc
    have h1 : p.skip = q.skip := hc.1
    have h2 : p.limit = q.limit := hc.2
    rcases h with h | h
    · exact h h1
    · exact h h2

/-- Parameter object: page offset 0, service filter BigQuery. -/
def paramsServiceA : CostParams :=
  { skip := some 0, limit := some 10, service := some "BigQuery"
    project := none, sku := none, start_date := none, end_date := none }

/-- Same paging as `paramsServiceA` but a different service filter. -/
def paramsServiceB : CostParams :=
  { skip := some 0, limit := some 10, service := some "Compute"
    project := none, sku := none, start_date := none, end_date := none }

/-- Same filters as `paramsServiceA` but a different page offset. -/
def paramsSkip20 : CostParams :=
  { skip := some 20, limit := some 10, service := some "BigQuery"
    project := none, sku := none, start_date := none, end_date := none }

/-- Witness for `fetch_effect_deps_only_paging`: changing only the
service filter does not re-trigger the effect; changing `skip` does. -/
theorem fetch_effect_deps_only_paging_witness :
    effectRefires (some paramsServiceA) (some paramsServiceB) = false ∧
      effectRefires (some paramsServiceA) (some paramsSkip20) = true :=
  ⟨fetch_effect_deps_only_paging.1 paramsServiceA paramsServiceB rfl rfl,
    fetch_effect_deps_only_paging.2 paramsServiceA paramsSkip20
      (Or.inl (by decide))⟩

end FinOps
